import Mathlib

/-! VM data structures and inline accessors of
`hypervisor/include/arch/x86/guest/vm.h`.

A shallow embedding of the inline functions of `vm.h` (`vcpu_from_vid`,
`vcpu_from_pid`, `get_primary_vcpu`, `get_vm_config`, `is_lapic_pt`) and of the
leading members of `struct vm_arch` / `struct acrn_vm`.

Conventions.
* Unsigned C integers are natural numbers.  The only arithmetic the modelled
  functions perform is the increment of the `uint16_t` loop counter, which
  runs while `i < created_vcpus <= 0xffff` and therefore cannot wrap.
* A pointer into an array is the index of the slot it designates; taking an
  address (`&a[i]`) never reads memory, dereferencing does and fails (`none`)
  when the slot lies outside the array.
* A function result is an `Option`: `none` stands for an execution without a
  defined result (a read outside an array, or exhausted loop fuel).
-/

namespace Acrn

/-! ## Data model -/

/-- The C enumeration `enum vm_state`. -/
inductive vm_state where
  | VM_STATE_UNKNOWN
  | VM_CREATED
  | VM_STARTED
  | VM_PAUSED
  deriving DecidableEq, Repr

/-- The C enumeration `enum vpic_wire_mode`. -/
inductive vpic_wire_mode where
  | VPIC_WIRE_INTR
  | VPIC_WIRE_LAPIC
  | VPIC_WIRE_IOAPIC
  | VPIC_WIRE_NULL
  deriving DecidableEq, Repr

/-- Modelled from the spec: `struct acrn_vcpu` is declared outside `vm.h`.
The members are the ones the data model lists and the lookups read: the VCPU
identifier, the assigned physical-core identifier and the bootstrap-processor
flag. -/
structure acrn_vcpu where
  vcpu_id : Nat
  pcpu_id : Nat
  bsp : Bool
  deriving DecidableEq, Repr

/-- Modelled from the spec: `is_vcpu_bsp` is declared outside `vm.h`; it tells
whether the VCPU carries the bootstrap-processor flag. -/
def is_vcpu_bsp (vcpu : acrn_vcpu) : Bool := vcpu.bsp

/-- The C structure `struct vm_hw_info`.  The length of `vcpu_array` is the
capacity `CONFIG_MAX_VCPUS_PER_VM` of the array. -/
structure vm_hw_info where
  vcpu_array : List acrn_vcpu
  created_vcpus : Nat
  gpa_lowtop : Nat
  deriving DecidableEq, Repr

/-- The C structure `struct sw_linux`; a `void *` is the address it holds. -/
structure sw_linux where
  ramdisk_src_addr : Nat
  ramdisk_load_addr : Nat
  ramdisk_size : Nat
  bootargs_src_addr : Nat
  bootargs_load_addr : Nat
  bootargs_size : Nat
  dtb_src_addr : Nat
  dtb_load_addr : Nat
  dtb_size : Nat
  deriving DecidableEq, Repr

/-- The C structure `struct sw_kernel_info`. -/
structure sw_kernel_info where
  kernel_src_addr : Nat
  kernel_load_addr : Nat
  kernel_entry_addr : Nat
  kernel_size : Nat
  deriving DecidableEq, Repr

/-- The C structure `struct vm_sw_info`. -/
structure vm_sw_info where
  kernel_type : Int
  kernel_info : sw_kernel_info
  linux_info : sw_linux
  io_shared_page : Nat
  is_completion_polling : Bool
  deriving DecidableEq, Repr

/-- The C structure `struct vcpuid_entry`. -/
structure vcpuid_entry where
  eax : Nat
  ebx : Nat
  ecx : Nat
  edx : Nat
  leaf : Nat
  subleaf : Nat
  flags : Nat
  padding : Nat
  deriving DecidableEq, Repr

/-- The C structure `struct acrn_vm`, in declaration order, restricted to the
members that are scalars, pointers (held as addresses) or of a type `vm.h`
declares in full.  Left out are `arch_vm` (its layout is treated further
down), `pm`, `vuart`, `spinlock`, `emul_mmio`, `sworld_control`,
`sworld_snapshot`, `vpci`, `softirq_dev_lock`, `softirq_dev_entry_list` and
the two members that exist under `CONFIG_PARTITION_MODE` only; their types
come from other headers and none of the modelled functions reads them. -/
structure acrn_vm where
  hw : vm_hw_info
  sw : vm_sw_info
  e820_entry_num : Nat
  e820_entries : Nat
  vm_id : Nat
  state : vm_state
  wire_mode : vpic_wire_mode
  iommu : Nat
  emul_mmio_regions : Nat
  GUID : List Nat
  vcpuid_entry_nr : Nat
  vcpuid_level : Nat
  vcpuid_xlevel : Nat
  vcpuid_entries : List vcpuid_entry
  intr_inject_delay_delta : Nat
  snoopy_mem : Bool
  deriving DecidableEq, Repr

/-- A value of type `struct acrn_vcpu *` as the lookups produce it: `NULL`, or
the address `&vm->hw.vcpu_array[idx]` of a slot of the VCPU array. -/
inductive vcpu_ptr where
  | NULL
  | slot (idx : Nat)
  deriving DecidableEq, Repr

/-- Dereference of a VCPU pointer against the VM it points into. -/
def vcpu_deref (vm : acrn_vm) : vcpu_ptr → Option acrn_vcpu
  | vcpu_ptr.NULL => none
  | vcpu_ptr.slot idx => vm.hw.vcpu_array[idx]?

/-- The state a lookup runs on: the VM object its argument points to and the
local variables `i`, `vcpu` and `target_vcpu` (the last one is not declared by
`vcpu_from_vid` and stays untouched there). -/
structure lookup_frame where
  vm : acrn_vm
  i : Nat
  vcpu : vcpu_ptr
  target_vcpu : vcpu_ptr
  deriving DecidableEq, Repr

/-! ## The `foreach_vcpu` loop -/

/-- The iterations of `foreach_vcpu` from the current frame on.  The loop
body returns the frame it leaves and whether it executed `break`. -/
def foreach_vcpu_loop (body : lookup_frame → Option (lookup_frame × Bool)) :
    Nat → lookup_frame → Option lookup_frame
  | 0, _ => none
  | fuel + 1, st =>
    if st.i < st.vm.hw.created_vcpus then
      match body st with
      | none => none
      | some (st1, true) => some st1
      | some (st1, false) =>
        foreach_vcpu_loop body fuel
          { st1 with i := st1.i + 1, vcpu := vcpu_ptr.slot (st1.i + 1) }
    else some st

/-- Modelled from the spec: the macro `foreach_vcpu(idx, vm, vcpu)` is defined
outside `vm.h`.  It is the linear scan of the VM's VCPU set in storage order:
`for (idx = 0, vcpu = &vm->hw.vcpu_array[idx]; idx < vm->hw.created_vcpus;
idx++, vcpu = &vm->hw.vcpu_array[idx]) body`.  One unit of fuel is spent per
evaluation of the loop condition; `created_vcpus + 1` evaluations are enough
for a body that leaves `idx` and `created_vcpus` alone. -/
def foreach_vcpu (body : lookup_frame → Option (lookup_frame × Bool))
    (st : lookup_frame) : Option lookup_frame :=
  foreach_vcpu_loop body (st.vm.hw.created_vcpus + 1)
    { st with i := 0, vcpu := vcpu_ptr.slot 0 }

/-! ## The three VCPU lookups -/

/-- Loop body of `vcpu_from_vid`: `if (vcpu->vcpu_id == vcpu_id) { break; }`. -/
def vcpu_from_vid_body (vcpu_id : Nat) (st : lookup_frame) :
    Option (lookup_frame × Bool) :=
  match vcpu_deref st.vm st.vcpu with
  | none => none
  | some v => if v.vcpu_id = vcpu_id then some (st, true) else some (st, false)

/-- Execution of `vcpu_from_vid` up to its `return`: the final frame.  The
locals `i` and `vcpu` are declared without initialiser; `foreach_vcpu` assigns
both before anything reads them. -/
def vcpu_from_vid_run (vm : acrn_vm) (vcpu_id : Nat) : Option lookup_frame :=
  foreach_vcpu (vcpu_from_vid_body vcpu_id)
    { vm := vm, i := 0, vcpu := vcpu_ptr.NULL, target_vcpu := vcpu_ptr.NULL }

/-- The C function `vcpu_from_vid`: `return vcpu;`. -/
def vcpu_from_vid (vm : acrn_vm) (vcpu_id : Nat) : Option vcpu_ptr :=
  (vcpu_from_vid_run vm vcpu_id).map (fun st => st.vcpu)

/-- Loop body of `vcpu_from_pid`:
`if (vcpu->pcpu_id == pcpu_id) { target_vcpu = vcpu; break; }`. -/
def vcpu_from_pid_body (pcpu_id : Nat) (st : lookup_frame) :
    Option (lookup_frame × Bool) :=
  match vcpu_deref st.vm st.vcpu with
  | none => none
  | some v =>
    if v.pcpu_id = pcpu_id then some ({ st with target_vcpu := st.vcpu }, true)
    else some (st, false)

/-- Execution of `vcpu_from_pid` up to its `return`, with
`target_vcpu = NULL` at entry. -/
def vcpu_from_pid_run (vm : acrn_vm) (pcpu_id : Nat) : Option lookup_frame :=
  foreach_vcpu (vcpu_from_pid_body pcpu_id)
    { vm := vm, i := 0, vcpu := vcpu_ptr.NULL, target_vcpu := vcpu_ptr.NULL }

/-- The C function `vcpu_from_pid`: `return target_vcpu;`. -/
def vcpu_from_pid (vm : acrn_vm) (pcpu_id : Nat) : Option vcpu_ptr :=
  (vcpu_from_pid_run vm pcpu_id).map (fun st => st.target_vcpu)

/-- Loop body of `get_primary_vcpu`:
`if (is_vcpu_bsp(vcpu)) { target_vcpu = vcpu; break; }`. -/
def get_primary_vcpu_body (st : lookup_frame) : Option (lookup_frame × Bool) :=
  match vcpu_deref st.vm st.vcpu with
  | none => none
  | some v =>
    if is_vcpu_bsp v then some ({ st with target_vcpu := st.vcpu }, true)
    else some (st, false)

/-- Execution of `get_primary_vcpu` up to its `return`, with
`target_vcpu = NULL` at entry. -/
def get_primary_vcpu_run (vm : acrn_vm) : Option lookup_frame :=
  foreach_vcpu get_primary_vcpu_body
    { vm := vm, i := 0, vcpu := vcpu_ptr.NULL, target_vcpu := vcpu_ptr.NULL }

/-- The C function `get_primary_vcpu`: `return target_vcpu;`. -/
def get_primary_vcpu (vm : acrn_vm) : Option vcpu_ptr :=
  (get_primary_vcpu_run vm).map (fun st => st.target_vcpu)

/-! ## Specification vocabulary and the example VM of the specification -/

/-- The VCPU `v` is the created VCPU stored at index `j` of the VCPU array. -/
@[reducible] def created_at (vm : acrn_vm) (j : Nat) (v : acrn_vcpu) : Prop :=
  j < vm.hw.created_vcpus ∧ vm.hw.vcpu_array[j]? = some v

/-- A VM whose VCPU array has `capacity` slots, the first `vcpus.length` of
them created and holding `vcpus`, the others zero-filled. -/
def mk_vm (capacity : Nat) (vcpus : List acrn_vcpu) : acrn_vm :=
  { hw := { vcpu_array :=
              vcpus ++ List.replicate (capacity - vcpus.length)
                { vcpu_id := 0, pcpu_id := 0, bsp := false },
            created_vcpus := vcpus.length,
            gpa_lowtop := 0 },
    sw := { kernel_type := 0,
            kernel_info := { kernel_src_addr := 0, kernel_load_addr := 0,
                             kernel_entry_addr := 0, kernel_size := 0 },
            linux_info := { ramdisk_src_addr := 0, ramdisk_load_addr := 0, ramdisk_size := 0,
                            bootargs_src_addr := 0, bootargs_load_addr := 0,
                            bootargs_size := 0, dtb_src_addr := 0, dtb_load_addr := 0,
                            dtb_size := 0 },
            io_shared_page := 0, is_completion_polling := false },
    e820_entry_num := 0, e820_entries := 0, vm_id := 0, state := vm_state.VM_CREATED,
    wire_mode := vpic_wire_mode.VPIC_WIRE_INTR, iommu := 0, emul_mmio_regions := 0,
    GUID := List.replicate 16 0, vcpuid_entry_nr := 0, vcpuid_level := 0,
    vcpuid_xlevel := 0, vcpuid_entries := [], intr_inject_delay_delta := 0,
    snoopy_mem := false }

/-- The VM of the specification's lookup example,
`{(id=0,pcpu=2,bsp=true), (id=1,pcpu=3,bsp=false)}`, in an array of 8 slots. -/
def example_vm : acrn_vm :=
  mk_vm 8 [{ vcpu_id := 0, pcpu_id := 2, bsp := true },
           { vcpu_id := 1, pcpu_id := 3, bsp := false }]

/-- A VM whose bootstrap VCPU is the second created one. -/
def late_bsp_vm : acrn_vm :=
  mk_vm 4 [{ vcpu_id := 0, pcpu_id := 1, bsp := false },
           { vcpu_id := 1, pcpu_id := 2, bsp := true }]

/-! ## The configuration table and its accessors -/

/-- The C enumeration `enum acrn_vm_type`. -/
inductive acrn_vm_type where
  | UNDEFINED_VM
  | PRE_LAUNCHED_VM
  | SOS_VM
  | NORMAL_VM
  deriving DecidableEq, Repr

/-- The C structure `struct acrn_vm_mem_config`. -/
structure acrn_vm_mem_config where
  start_hpa : Nat
  size : Nat
  deriving DecidableEq, Repr

/-- The C structure `struct acrn_vm_os_config`; a `char` array is the list of
its bytes. -/
structure acrn_vm_os_config where
  name : List Nat
  bootargs : List Nat
  deriving DecidableEq, Repr

/-- The C structure `struct acrn_vm_config` (without `pci_ptdevs`, a pointer
to records built on a type of another header, and without the members that
exist under `CONFIG_PARTITION_MODE` only). -/
structure acrn_vm_config where
  type : acrn_vm_type
  name : List Nat
  GUID : List Nat
  pcpu_bitmap : Nat
  guest_flags : Nat
  memory : acrn_vm_mem_config
  pci_ptdev_num : Nat
  os_config : acrn_vm_os_config
  deriving DecidableEq, Repr

/-- A value of type `struct acrn_vm_config *` as `get_vm_config` produces it:
the address `&vm_configs[idx]` of a slot of the static table. -/
inductive config_ptr where
  | slot (idx : Nat)
  deriving DecidableEq, Repr

/-- Dereference of a configuration pointer against the table `vm_configs`,
whose length is `CONFIG_MAX_VM_NUM`. -/
def config_deref (vm_configs : List acrn_vm_config) : config_ptr → Option acrn_vm_config
  | config_ptr.slot idx => vm_configs[idx]?

/-- The C function `get_vm_config`: `return &vm_configs[vm_id];`.  The global
table is passed in and handed back next to the result. -/
def get_vm_config (vm_configs : List acrn_vm_config) (vm_id : Nat) :
    config_ptr × List acrn_vm_config :=
  (config_ptr.slot vm_id, vm_configs)

/-- The C function `is_lapic_pt`:
`return ((vm_configs[vm->vm_id].guest_flags & LAPIC_PASSTHROUGH) != 0U);`.
The mask `LAPIC_PASSTHROUGH` is defined outside `vm.h` and is a parameter.
The global table and the VM are handed back next to the result. -/
def is_lapic_pt (LAPIC_PASSTHROUGH : Nat) (vm_configs : List acrn_vm_config)
    (vm : acrn_vm) : Option (Bool × List acrn_vm_config × acrn_vm) :=
  match vm_configs[vm.vm_id]? with
  | none => none
  | some cfg => some ((cfg.guest_flags &&& LAPIC_PASSTHROUGH) != 0, vm_configs, vm)

/-- A configuration record with the given guest flags. -/
def mk_config (guest_flags : Nat) : acrn_vm_config :=
  { type := acrn_vm_type.NORMAL_VM, name := [], GUID := List.replicate 16 0,
    pcpu_bitmap := 0, guest_flags := guest_flags,
    memory := { start_hpa := 0, size := 0 }, pci_ptdev_num := 0,
    os_config := { name := [], bootargs := [] } }

/-- A table of three configuration records. -/
def example_configs : List acrn_vm_config :=
  [mk_config 0, mk_config 2, mk_config 3]

/-! ## Layout of `struct vm_arch` and `struct acrn_vm` -/

/-- Size and alignment of a member of a C structure. -/
structure c_member where
  size : Nat
  align : Nat
  deriving DecidableEq, Repr

/-- The least multiple of `align` that is not below `off`. -/
def align_up (off align : Nat) : Nat :=
  (off + align - 1) / align * align

/-- Offset of member number `k` of a structure whose members are laid out in
declaration order from the running offset `off`, each at the next offset its
alignment admits. -/
def member_offset : List c_member → Nat → Nat → Option Nat
  | [], _, _ => none
  | m :: _, off, 0 => some (align_up off m.align)
  | m :: ms, off, k + 1 => member_offset ms (align_up off m.align + m.size) k

/-- The members of `struct vm_arch` in declaration order: `io_bitmap`
(`uint8_t[PAGE_SIZE*2]`), `msr_bitmap` (`uint8_t[PAGE_SIZE]`),
`guest_init_pml4` (`uint64_t`), `nworld_eptp` and `sworld_eptp` (`void *`),
then `rest`, the members from `ept_mem_ops` on, whose types other headers
declare.  `PAGE_SIZE` comes from `page.h` and is a parameter. -/
def vm_arch_members (PAGE_SIZE : Nat) (rest : List c_member) : List c_member :=
  [{ size := PAGE_SIZE * 2, align := 1 }, { size := PAGE_SIZE, align := 1 },
   { size := 8, align := 8 }, { size := 8, align := 8 }, { size := 8, align := 8 }] ++ rest

/-- The members of `struct acrn_vm` in declaration order: `arch_vm`, a
`struct vm_arch` (declared `__aligned(PAGE_SIZE)`, of size `arch_size`), then
`rest`, the members from `hw` on. -/
def acrn_vm_members (PAGE_SIZE arch_size : Nat) (rest : List c_member) : List c_member :=
  { size := arch_size, align := PAGE_SIZE } :: rest

/-- Byte offset of `arch_vm.io_bitmap` (I/O bitmap A) within `struct acrn_vm`. -/
def offset_io_bitmap_a (PAGE_SIZE arch_size : Nat) (arch_rest vm_rest : List c_member) :
    Option Nat :=
  match member_offset (acrn_vm_members PAGE_SIZE arch_size vm_rest) 0 0,
        member_offset (vm_arch_members PAGE_SIZE arch_rest) 0 0 with
  | some a, some b => some (a + b)
  | _, _ => none

/-- Byte offset of `&arch_vm.io_bitmap[PAGE_SIZE]` (I/O bitmap B) within
`struct acrn_vm`; an element of a `uint8_t` array is one byte. -/
def offset_io_bitmap_b (PAGE_SIZE arch_size : Nat) (arch_rest vm_rest : List c_member) :
    Option Nat :=
  (offset_io_bitmap_a PAGE_SIZE arch_size arch_rest vm_rest).map (fun a => a + PAGE_SIZE * 1)

/-- Byte offset of `arch_vm.msr_bitmap` within `struct acrn_vm`. -/
def offset_msr_bitmap (PAGE_SIZE arch_size : Nat) (arch_rest vm_rest : List c_member) :
    Option Nat :=
  match member_offset (acrn_vm_members PAGE_SIZE arch_size vm_rest) 0 0,
        member_offset (vm_arch_members PAGE_SIZE arch_rest) 0 1 with
  | some a, some b => some (a + b)
  | _, _ => none

/-- Address of a member at byte offset `offset` of an object placed at
address `base`. -/
def address_of (base : Nat) (offset : Option Nat) : Option Nat :=
  offset.map (fun o => base + o)

/-! ## Auxiliary definitions for the proofs -/

/-- The common shape of the three loop bodies: read the VCPU under the cursor,
and on a VCPU satisfying `p` apply `hit` to the frame and leave the loop. -/
def search_body (p : acrn_vcpu → Bool) (hit : lookup_frame → lookup_frame)
    (st : lookup_frame) : Option (lookup_frame × Bool) :=
  match vcpu_deref st.vm st.vcpu with
  | none => none
  | some v => if p v then some (hit st, true) else some (st, false)

/-- The assignment `target_vcpu = vcpu`. -/
def record_target (st : lookup_frame) : lookup_frame :=
  { st with target_vcpu := st.vcpu }

/-- The index `j` holds the first created VCPU that satisfies `p`. -/
@[reducible] def first_match (vm : acrn_vm) (p : acrn_vcpu → Bool) (j : Nat) (v : acrn_vcpu) : Prop :=
  created_at vm j v ∧ p v = true ∧
    ∀ k w, k < j → created_at vm k w → p w = false

/-- No created VCPU satisfies `p`. -/
@[reducible] def no_match (vm : acrn_vm) (p : acrn_vcpu → Bool) : Prop :=
  ∀ j v, created_at vm j v → p v = false

/-! ## The loop bodies are searches -/

theorem vcpu_from_vid_body_eq (vcpu_id : Nat) :
    vcpu_from_vid_body vcpu_id
      = search_body (fun v => decide (v.vcpu_id = vcpu_id)) (fun st => st) := by
  funext st
  simp only [vcpu_from_vid_body, search_body, decide_eq_true_eq]

theorem vcpu_from_pid_body_eq (pcpu_id : Nat) :
    vcpu_from_pid_body pcpu_id
      = search_body (fun v => decide (v.pcpu_id = pcpu_id)) record_target := by
  funext st
  simp only [vcpu_from_pid_body, search_body, record_target, decide_eq_true_eq]

theorem get_primary_vcpu_body_eq :
    get_primary_vcpu_body = search_body is_vcpu_bsp record_target := by
  funext st
  simp only [get_primary_vcpu_body, search_body, record_target]

/-! ## The scan -/

/-- Scanning from index `i` reaches the first match `j` at distance `d`. -/
theorem loop_hit (p : acrn_vcpu → Bool) (hit : lookup_frame → lookup_frame)
    (vm : acrn_vm) (t : vcpu_ptr) (j : Nat) (v : acrn_vcpu)
    (hj : j < vm.hw.created_vcpus) (hv : vm.hw.vcpu_array[j]? = some v)
    (hp : p v = true)
    (hfirst : ∀ k w, k < j → vm.hw.vcpu_array[k]? = some w → p w = false) :
    ∀ (d i fuel : Nat), i + d = j → d < fuel →
      foreach_vcpu_loop (search_body p hit) fuel
          { vm := vm, i := i, vcpu := vcpu_ptr.slot i, target_vcpu := t }
        = some (hit { vm := vm, i := j, vcpu := vcpu_ptr.slot j, target_vcpu := t }) := by
  intro d
  induction d with
  | zero =>
    intro i fuel hij hfuel
    obtain ⟨f, rfl⟩ : ∃ f, fuel = f + 1 := ⟨fuel - 1, by omega⟩
    have hi : i = j := by omega
    subst hi
    simp [foreach_vcpu_loop, search_body, vcpu_deref, hj, hv, hp]
  | succ d ih =>
    intro i fuel hij hfuel
    obtain ⟨f, rfl⟩ : ∃ f, fuel = f + 1 := ⟨fuel - 1, by omega⟩
    have hlt : i < j := by omega
    have hjlen : j < vm.hw.vcpu_array.length := by
      rcases List.getElem?_eq_some.mp hv with ⟨h, _⟩
      exact h
    have hilen : i < vm.hw.vcpu_array.length := by omega
    have hw : vm.hw.vcpu_array[i]? = some (vm.hw.vcpu_array[i]) :=
      List.getElem?_eq_getElem hilen
    have hpw : p (vm.hw.vcpu_array[i]) = false := hfirst i _ hlt hw
    have hic : i < vm.hw.created_vcpus := by omega
    have hrec := ih (i + 1) f (by omega) (by omega)
    simp only [foreach_vcpu_loop, search_body, vcpu_deref, hic, hw, hpw, if_true]
    simpa using hrec

/-- Scanning from index `i` without any match ends with the cursor on slot
`created_vcpus`. -/
theorem loop_miss (p : acrn_vcpu → Bool) (hit : lookup_frame → lookup_frame)
    (vm : acrn_vm) (t : vcpu_ptr)
    (hwf : vm.hw.created_vcpus ≤ vm.hw.vcpu_array.length)
    (hnone : ∀ k w, k < vm.hw.created_vcpus → vm.hw.vcpu_array[k]? = some w → p w = false) :
    ∀ (d i fuel : Nat), i + d = vm.hw.created_vcpus → d < fuel →
      foreach_vcpu_loop (search_body p hit) fuel
          { vm := vm, i := i, vcpu := vcpu_ptr.slot i, target_vcpu := t }
        = some { vm := vm, i := vm.hw.created_vcpus,
                 vcpu := vcpu_ptr.slot vm.hw.created_vcpus, target_vcpu := t } := by
  intro d
  induction d with
  | zero =>
    intro i fuel hij hfuel
    obtain ⟨f, rfl⟩ : ∃ f, fuel = f + 1 := ⟨fuel - 1, by omega⟩
    have hi : i = vm.hw.created_vcpus := by omega
    simp [foreach_vcpu_loop, hi]
  | succ d ih =>
    intro i fuel hij hfuel
    obtain ⟨f, rfl⟩ : ∃ f, fuel = f + 1 := ⟨fuel - 1, by omega⟩
    have hic : i < vm.hw.created_vcpus := by omega
    have hilen : i < vm.hw.vcpu_array.length := by omega
    have hw : vm.hw.vcpu_array[i]? = some (vm.hw.vcpu_array[i]) :=
      List.getElem?_eq_getElem hilen
    have hpw : p (vm.hw.vcpu_array[i]) = false := hnone i _ hic hw
    have hrec := ih (i + 1) f (by omega) (by omega)
    simp only [foreach_vcpu_loop, search_body, vcpu_deref, hic, hw, hpw, if_true]
    simpa using hrec

/-- A search started by `foreach_vcpu` stops on the first match. -/
theorem foreach_vcpu_hit (p : acrn_vcpu → Bool) (hit : lookup_frame → lookup_frame)
    (vm : acrn_vm) (i0 : Nat) (c0 t : vcpu_ptr) (j : Nat) (v : acrn_vcpu)
    (h : first_match vm p j v) :
    foreach_vcpu (search_body p hit) { vm := vm, i := i0, vcpu := c0, target_vcpu := t }
      = some (hit { vm := vm, i := j, vcpu := vcpu_ptr.slot j, target_vcpu := t }) := by
  obtain ⟨⟨hj, hv⟩, hp, hfirst⟩ := h
  have hf : ∀ k w, k < j → vm.hw.vcpu_array[k]? = some w → p w = false :=
    fun k w hk hw => hfirst k w hk ⟨by omega, hw⟩
  exact loop_hit p hit vm t j v hj hv hp hf j 0 (vm.hw.created_vcpus + 1) (by omega) (by omega)

/-- A search started by `foreach_vcpu` that finds nothing runs the cursor to
slot `created_vcpus`. -/
theorem foreach_vcpu_miss (p : acrn_vcpu → Bool) (hit : lookup_frame → lookup_frame)
    (vm : acrn_vm) (i0 : Nat) (c0 t : vcpu_ptr)
    (hwf : vm.hw.created_vcpus ≤ vm.hw.vcpu_array.length) (h : no_match vm p) :
    foreach_vcpu (search_body p hit) { vm := vm, i := i0, vcpu := c0, target_vcpu := t }
      = some { vm := vm, i := vm.hw.created_vcpus,
               vcpu := vcpu_ptr.slot vm.hw.created_vcpus, target_vcpu := t } := by
  have hn : ∀ k w, k < vm.hw.created_vcpus → vm.hw.vcpu_array[k]? = some w → p w = false :=
    fun k w hk hw => h k w ⟨hk, hw⟩
  exact loop_miss p hit vm t hwf hn vm.hw.created_vcpus 0 (vm.hw.created_vcpus + 1)
    (by omega) (by omega)

/-- Either no created VCPU satisfies `p`, or there is a first one. -/
theorem no_match_or_first_match (vm : acrn_vm) (p : acrn_vcpu → Bool) :
    no_match vm p ∨ ∃ j v, first_match vm p j v := by
  classical
  by_cases h : ∃ j, ∃ v, created_at vm j v ∧ p v = true
  · right
    obtain ⟨v, hc, hp⟩ := Nat.find_spec h
    refine ⟨Nat.find h, v, hc, hp, ?_⟩
    intro k w hk hkc
    by_contra hne
    exact Nat.find_min h hk ⟨w, hkc, by simpa using hne⟩
  · left
    intro j v hc
    by_contra hne
    exact h ⟨j, v, hc, by simpa using hne⟩

/-- A first match excludes `no_match`. -/
theorem first_match_not_no_match (vm : acrn_vm) (p : acrn_vcpu → Bool) (j : Nat)
    (v : acrn_vcpu) (h : first_match vm p j v) : ¬ no_match vm p := by
  intro hn
  have := hn j v h.1
  rw [h.2.1] at this
  exact Bool.noConfusion this

/-- The loop of a search leaves the VM of its frame as it found it, provided
`hit` does. -/
theorem loop_vm (p : acrn_vcpu → Bool) (hit : lookup_frame → lookup_frame)
    (hhit : ∀ s, (hit s).vm = s.vm) :
    ∀ (fuel : Nat) (st st1 : lookup_frame),
      foreach_vcpu_loop (search_body p hit) fuel st = some st1 → st1.vm = st.vm := by
  intro fuel
  induction fuel with
  | zero =>
    intro st st1 h
    simp [foreach_vcpu_loop] at h
  | succ f ih =>
    intro st st1 h
    unfold foreach_vcpu_loop at h
    by_cases hc : st.i < st.vm.hw.created_vcpus
    · rw [if_pos hc] at h
      cases hd : vcpu_deref st.vm st.vcpu with
      | none =>
        have hb : search_body p hit st = none := by simp [search_body, hd]
        simp [hb] at h
      | some v =>
        by_cases hp : p v = true
        · have hb : search_body p hit st = some (hit st, true) := by
            simp [search_body, hd, hp]
          simp [hb] at h
          rw [← h]
          exact hhit st
        · have hb : search_body p hit st = some (st, false) := by
            simp [search_body, hd, hp]
          simp only [hb] at h
          have hrec := ih _ _ h
          exact hrec
    · rw [if_neg hc] at h
      simp at h
      rw [← h]

/-! ## Results of the three lookups in terms of matches -/

theorem vcpu_from_vid_of_first_match (vm : acrn_vm) (vcpu_id j : Nat) (v : acrn_vcpu)
    (h : first_match vm (fun w => decide (w.vcpu_id = vcpu_id)) j v) :
    vcpu_from_vid vm vcpu_id = some (vcpu_ptr.slot j) := by
  simp only [vcpu_from_vid, vcpu_from_vid_run, vcpu_from_vid_body_eq,
    foreach_vcpu_hit _ _ vm _ _ _ j v h, Option.map_some']

theorem vcpu_from_vid_of_no_match (vm : acrn_vm) (vcpu_id : Nat)
    (hwf : vm.hw.created_vcpus ≤ vm.hw.vcpu_array.length)
    (h : no_match vm (fun w => decide (w.vcpu_id = vcpu_id))) :
    vcpu_from_vid vm vcpu_id = some (vcpu_ptr.slot vm.hw.created_vcpus) := by
  simp only [vcpu_from_vid, vcpu_from_vid_run, vcpu_from_vid_body_eq,
    foreach_vcpu_miss _ _ vm _ _ _ hwf h, Option.map_some']

theorem vcpu_from_pid_of_first_match (vm : acrn_vm) (pcpu_id j : Nat) (v : acrn_vcpu)
    (h : first_match vm (fun w => decide (w.pcpu_id = pcpu_id)) j v) :
    vcpu_from_pid vm pcpu_id = some (vcpu_ptr.slot j) := by
  simp only [vcpu_from_pid, vcpu_from_pid_run, vcpu_from_pid_body_eq,
    foreach_vcpu_hit _ _ vm _ _ _ j v h, Option.map_some', record_target]

theorem vcpu_from_pid_of_no_match (vm : acrn_vm) (pcpu_id : Nat)
    (hwf : vm.hw.created_vcpus ≤ vm.hw.vcpu_array.length)
    (h : no_match vm (fun w => decide (w.pcpu_id = pcpu_id))) :
    vcpu_from_pid vm pcpu_id = some vcpu_ptr.NULL := by
  simp only [vcpu_from_pid, vcpu_from_pid_run, vcpu_from_pid_body_eq,
    foreach_vcpu_miss _ _ vm _ _ _ hwf h, Option.map_some']

theorem get_primary_vcpu_of_first_match (vm : acrn_vm) (j : Nat) (v : acrn_vcpu)
    (h : first_match vm is_vcpu_bsp j v) :
    get_primary_vcpu vm = some (vcpu_ptr.slot j) := by
  simp only [get_primary_vcpu, get_primary_vcpu_run, get_primary_vcpu_body_eq,
    foreach_vcpu_hit _ _ vm _ _ _ j v h, Option.map_some', record_target]

theorem get_primary_vcpu_of_no_match (vm : acrn_vm)
    (hwf : vm.hw.created_vcpus ≤ vm.hw.vcpu_array.length)
    (h : no_match vm is_vcpu_bsp) :
    get_primary_vcpu vm = some vcpu_ptr.NULL := by
  simp only [get_primary_vcpu, get_primary_vcpu_run, get_primary_vcpu_body_eq,
    foreach_vcpu_miss _ _ vm _ _ _ hwf h, Option.map_some']

/-- The created VCPUs of the example VM are its first two entries. -/
theorem example_vm_created (j : Nat) (v : acrn_vcpu) (h : created_at example_vm j v) :
    (j = 0 ∧ v = { vcpu_id := 0, pcpu_id := 2, bsp := true }) ∨
    (j = 1 ∧ v = { vcpu_id := 1, pcpu_id := 3, bsp := false }) := by
  obtain ⟨hj, hv⟩ := h
  have hj2 : j < 2 := hj
  interval_cases j
  · left
    refine ⟨rfl, ?_⟩
    have h0 : example_vm.hw.vcpu_array[0]? = some { vcpu_id := 0, pcpu_id := 2, bsp := true } := rfl
    rw [h0] at hv
    exact (Option.some.inj hv).symm
  · right
    refine ⟨rfl, ?_⟩
    have h1 : example_vm.hw.vcpu_array[1]? = some { vcpu_id := 1, pcpu_id := 3, bsp := false } := rfl
    rw [h1] at hv
    exact (Option.some.inj hv).symm

/-! ## The claims -/

/-- C1 (evaluated where no created VCPU matches): in the example VM of the
specification no created VCPU has identifier 5 or 2, and `vcpu_from_vid`
returns for both the address of slot 2, the first slot that was never created,
not `NULL`. -/
theorem vcpu_from_vid_absent_id_example :
    (∀ j v, created_at example_vm j v → v.vcpu_id ≠ 5 ∧ v.vcpu_id ≠ 2) ∧
    vcpu_from_vid example_vm 5 = some (vcpu_ptr.slot 2) ∧
    vcpu_from_vid example_vm 2 = some (vcpu_ptr.slot 2) ∧
    vcpu_from_vid example_vm 5 ≠ some vcpu_ptr.NULL ∧
    vcpu_from_vid example_vm 2 ≠ some vcpu_ptr.NULL := by
  refine ⟨?_, by decide, by decide, by decide, by decide⟩
  intro j v h
  rcases example_vm_created j v h with ⟨_, rfl⟩ | ⟨_, rfl⟩ <;> decide

/-- C2: when some created VCPU has the identifier `vcpu_id`, `vcpu_from_vid`
returns the address of the matching created VCPU of lowest index in
`hw.vcpu_array`. -/
theorem vcpu_from_vid_first_match (vm : acrn_vm) (vcpu_id : Nat)
    (h : ∃ j v, created_at vm j v ∧ v.vcpu_id = vcpu_id) :
    ∃ j v, created_at vm j v ∧ v.vcpu_id = vcpu_id ∧
      (∀ k w, k < j → created_at vm k w → w.vcpu_id ≠ vcpu_id) ∧
      vcpu_from_vid vm vcpu_id = some (vcpu_ptr.slot j) ∧
      vcpu_deref vm (vcpu_ptr.slot j) = some v := by
  rcases no_match_or_first_match vm (fun w => decide (w.vcpu_id = vcpu_id)) with hn | ⟨j, v, hf⟩
  · obtain ⟨j, v, hc, hv⟩ := h
    have := hn j v hc
    simp [hv] at this
  · refine ⟨j, v, hf.1, by simpa using hf.2.1, ?_, vcpu_from_vid_of_first_match vm vcpu_id j v hf,
      hf.1.2⟩
    intro k w hk hkc
    simpa using hf.2.2 k w hk hkc

/-- C2 at the example VM: identifier 1 is held by a created VCPU, and the
lookup returns the second entry. -/
theorem vcpu_from_vid_first_match_witness :
    (∃ j v, created_at example_vm j v ∧ v.vcpu_id = 1) ∧
    (∃ j v, created_at example_vm j v ∧ v.vcpu_id = 1 ∧
      (∀ k w, k < j → created_at example_vm k w → w.vcpu_id ≠ 1) ∧
      vcpu_from_vid example_vm 1 = some (vcpu_ptr.slot j) ∧
      vcpu_deref example_vm (vcpu_ptr.slot j) = some v) ∧
    vcpu_from_vid example_vm 1 = some (vcpu_ptr.slot 1) :=
  ⟨⟨1, { vcpu_id := 1, pcpu_id := 3, bsp := false }, ⟨by decide, rfl⟩, rfl⟩,
   vcpu_from_vid_first_match example_vm 1
     ⟨1, { vcpu_id := 1, pcpu_id := 3, bsp := false }, ⟨by decide, rfl⟩, rfl⟩,
   by decide⟩

/-- C3: on a VM whose created VCPUs lie inside the VCPU array,
`vcpu_from_pid` returns `NULL` exactly when no created VCPU is assigned to
`pcpu_id` (so also when `created_vcpus` is 0), and otherwise the address of
the created VCPU of lowest index assigned to it: the earlier one when several
share the physical core. -/
theorem vcpu_from_pid_spec (vm : acrn_vm) (pcpu_id : Nat)
    (hwf : vm.hw.created_vcpus ≤ vm.hw.vcpu_array.length) :
    (vcpu_from_pid vm pcpu_id = some vcpu_ptr.NULL ↔
      ∀ j v, created_at vm j v → v.pcpu_id ≠ pcpu_id) ∧
    ((∃ j v, created_at vm j v ∧ v.pcpu_id = pcpu_id) →
      ∃ j v, created_at vm j v ∧ v.pcpu_id = pcpu_id ∧
        (∀ k w, k < j → created_at vm k w → w.pcpu_id ≠ pcpu_id) ∧
        vcpu_from_pid vm pcpu_id = some (vcpu_ptr.slot j) ∧
        vcpu_deref vm (vcpu_ptr.slot j) = some v) ∧
    (∀ j k v w, created_at vm j v → created_at vm k w → v.pcpu_id = pcpu_id →
      w.pcpu_id = pcpu_id → vcpu_from_pid vm pcpu_id = some (vcpu_ptr.slot k) → k ≤ j) ∧
    (vm.hw.created_vcpus = 0 → vcpu_from_pid vm pcpu_id = some vcpu_ptr.NULL) := by
  have key : ∀ j v, first_match vm (fun w => decide (w.pcpu_id = pcpu_id)) j v →
      vcpu_from_pid vm pcpu_id = some (vcpu_ptr.slot j) :=
    fun j v hf => vcpu_from_pid_of_first_match vm pcpu_id j v hf
  rcases no_match_or_first_match vm (fun w => decide (w.pcpu_id = pcpu_id)) with hn | ⟨j, v, hf⟩
  · have hnull := vcpu_from_pid_of_no_match vm pcpu_id hwf hn
    have hne : ∀ j v, created_at vm j v → v.pcpu_id ≠ pcpu_id := by
      intro j v hc
      simpa using hn j v hc
    refine ⟨⟨fun _ => hne, fun _ => hnull⟩, ?_, ?_, fun _ => hnull⟩
    · rintro ⟨j, v, hc, hv⟩
      exact absurd hv (hne j v hc)
    · intro j k v w hc _ hv _ _
      exact absurd hv (hne j v hc)
  · have hres := key j v hf
    have hvj : v.pcpu_id = pcpu_id := by simpa using hf.2.1
    have hmin : ∀ k w, k < j → created_at vm k w → w.pcpu_id ≠ pcpu_id := by
      intro k w hk hkc
      simpa using hf.2.2 k w hk hkc
    refine ⟨⟨?_, ?_⟩, fun _ => ⟨j, v, hf.1, hvj, hmin, hres, hf.1.2⟩, ?_, ?_⟩
    · intro hnull
      rw [hres] at hnull
      exact absurd hnull (by simp)
    · intro hne
      exact absurd hvj (hne j v hf.1)
    · intro j2 k v2 w hc2 _ hv2 _ hk
      rw [hres] at hk
      have hkj : j = k := by simpa using hk
      subst hkj
      by_contra hlt
      exact hmin j2 v2 (by omega) hc2 hv2
    · intro h0
      have := hf.1.1
      omega

/-- C3 at the example VM: physical core 2 is assigned to the first entry,
which the lookup returns. -/
theorem vcpu_from_pid_spec_witness :
    example_vm.hw.created_vcpus ≤ example_vm.hw.vcpu_array.length ∧
    ((vcpu_from_pid example_vm 2 = some vcpu_ptr.NULL ↔
      ∀ j v, created_at example_vm j v → v.pcpu_id ≠ 2) ∧
    ((∃ j v, created_at example_vm j v ∧ v.pcpu_id = 2) →
      ∃ j v, created_at example_vm j v ∧ v.pcpu_id = 2 ∧
        (∀ k w, k < j → created_at example_vm k w → w.pcpu_id ≠ 2) ∧
        vcpu_from_pid example_vm 2 = some (vcpu_ptr.slot j) ∧
        vcpu_deref example_vm (vcpu_ptr.slot j) = some v) ∧
    (∀ j k v w, created_at example_vm j v → created_at example_vm k w → v.pcpu_id = 2 →
      w.pcpu_id = 2 → vcpu_from_pid example_vm 2 = some (vcpu_ptr.slot k) → k ≤ j) ∧
    (example_vm.hw.created_vcpus = 0 → vcpu_from_pid example_vm 2 = some vcpu_ptr.NULL)) ∧
    vcpu_from_pid example_vm 2 = some (vcpu_ptr.slot 0) :=
  ⟨by decide, vcpu_from_pid_spec example_vm 2 (by decide), by decide⟩

/-- C4: on a VM whose created VCPUs lie inside the VCPU array,
`get_primary_vcpu` returns `NULL` exactly when no created VCPU carries the
bootstrap flag, and otherwise the address of the created VCPU of lowest index
for which `is_vcpu_bsp` holds. -/
theorem get_primary_vcpu_spec (vm : acrn_vm)
    (hwf : vm.hw.created_vcpus ≤ vm.hw.vcpu_array.length) :
    (get_primary_vcpu vm = some vcpu_ptr.NULL ↔
      ∀ j v, created_at vm j v → is_vcpu_bsp v = false) ∧
    ((∃ j v, created_at vm j v ∧ is_vcpu_bsp v = true) →
      ∃ j v, created_at vm j v ∧ is_vcpu_bsp v = true ∧
        (∀ k w, k < j → created_at vm k w → is_vcpu_bsp w = false) ∧
        get_primary_vcpu vm = some (vcpu_ptr.slot j) ∧
        vcpu_deref vm (vcpu_ptr.slot j) = some v) := by
  rcases no_match_or_first_match vm is_vcpu_bsp with hn | ⟨j, v, hf⟩
  · have hnull := get_primary_vcpu_of_no_match vm hwf hn
    refine ⟨⟨fun _ => hn, fun _ => hnull⟩, ?_⟩
    rintro ⟨j, v, hc, hv⟩
    rw [hn j v hc] at hv
    exact Bool.noConfusion hv
  · have hres := get_primary_vcpu_of_first_match vm j v hf
    refine ⟨⟨?_, ?_⟩, fun _ => ⟨j, v, hf.1, hf.2.1, hf.2.2, hres, hf.1.2⟩⟩
    · intro hnull
      rw [hres] at hnull
      exact absurd hnull (by simp)
    · intro hne
      have := hne j v hf.1
      rw [hf.2.1] at this
      exact Bool.noConfusion this

/-- C4 at the example VM: the first entry carries the bootstrap flag and is
returned. -/
theorem get_primary_vcpu_spec_witness :
    example_vm.hw.created_vcpus ≤ example_vm.hw.vcpu_array.length ∧
    ((get_primary_vcpu example_vm = some vcpu_ptr.NULL ↔
      ∀ j v, created_at example_vm j v → is_vcpu_bsp v = false) ∧
    ((∃ j v, created_at example_vm j v ∧ is_vcpu_bsp v = true) →
      ∃ j v, created_at example_vm j v ∧ is_vcpu_bsp v = true ∧
        (∀ k w, k < j → created_at example_vm k w → is_vcpu_bsp w = false) ∧
        get_primary_vcpu example_vm = some (vcpu_ptr.slot j) ∧
        vcpu_deref example_vm (vcpu_ptr.slot j) = some v)) ∧
    get_primary_vcpu example_vm = some (vcpu_ptr.slot 0) :=
  ⟨by decide, get_primary_vcpu_spec example_vm (by decide), by decide⟩

/-- C5: a lookup that returns leaves the VM it was called on equal, in every
field, to the VM before the call, and the same lookup called again on it
returns the same pointer; on a VM whose created VCPUs lie inside the VCPU
array each of the three lookups does return. -/
theorem lookups_do_not_mutate (vm : acrn_vm) (vcpu_id pcpu_id : Nat) :
    (∀ st, vcpu_from_vid_run vm vcpu_id = some st →
      st.vm = vm ∧ vcpu_from_vid st.vm vcpu_id = some st.vcpu) ∧
    (∀ st, vcpu_from_pid_run vm pcpu_id = some st →
      st.vm = vm ∧ vcpu_from_pid st.vm pcpu_id = some st.target_vcpu) ∧
    (∀ st, get_primary_vcpu_run vm = some st →
      st.vm = vm ∧ get_primary_vcpu st.vm = some st.target_vcpu) ∧
    (vm.hw.created_vcpus ≤ vm.hw.vcpu_array.length →
      (∃ st, vcpu_from_vid_run vm vcpu_id = some st) ∧
      (∃ st, vcpu_from_pid_run vm pcpu_id = some st) ∧
      (∃ st, get_primary_vcpu_run vm = some st)) := by
  refine ⟨?_, ?_, ?_, ?_⟩
  · intro st h
    have hvm : st.vm = vm := by
      have h2 := h
      simp only [vcpu_from_vid_run, vcpu_from_vid_body_eq, foreach_vcpu] at h2
      exact loop_vm _ _ (fun _ => rfl) _ _ _ h2
    refine ⟨hvm, ?_⟩
    rw [hvm]
    simp only [vcpu_from_vid, h, Option.map_some']
  · intro st h
    have hvm : st.vm = vm := by
      have h2 := h
      simp only [vcpu_from_pid_run, vcpu_from_pid_body_eq, foreach_vcpu] at h2
      exact loop_vm _ record_target (fun _ => rfl) _ _ _ h2
    refine ⟨hvm, ?_⟩
    rw [hvm]
    simp only [vcpu_from_pid, h, Option.map_some']
  · intro st h
    have hvm : st.vm = vm := by
      have h2 := h
      simp only [get_primary_vcpu_run, get_primary_vcpu_body_eq, foreach_vcpu] at h2
      exact loop_vm _ record_target (fun _ => rfl) _ _ _ h2
    refine ⟨hvm, ?_⟩
    rw [hvm]
    simp only [get_primary_vcpu, h, Option.map_some']
  · intro hwf
    refine ⟨?_, ?_, ?_⟩
    · rcases no_match_or_first_match vm (fun w => decide (w.vcpu_id = vcpu_id))
        with hn | ⟨j, v, hf⟩
      · exact ⟨_, by
          simp only [vcpu_from_vid_run, vcpu_from_vid_body_eq]
          exact foreach_vcpu_miss _ _ vm _ _ _ hwf hn⟩
      · exact ⟨_, by
          simp only [vcpu_from_vid_run, vcpu_from_vid_body_eq]
          exact foreach_vcpu_hit _ _ vm _ _ _ j v hf⟩
    · rcases no_match_or_first_match vm (fun w => decide (w.pcpu_id = pcpu_id))
        with hn | ⟨j, v, hf⟩
      · exact ⟨_, by
          simp only [vcpu_from_pid_run, vcpu_from_pid_body_eq]
          exact foreach_vcpu_miss _ _ vm _ _ _ hwf hn⟩
      · exact ⟨_, by
          simp only [vcpu_from_pid_run, vcpu_from_pid_body_eq]
          exact foreach_vcpu_hit _ _ vm _ _ _ j v hf⟩
    · rcases no_match_or_first_match vm is_vcpu_bsp with hn | ⟨j, v, hf⟩
      · exact ⟨_, by
          simp only [get_primary_vcpu_run, get_primary_vcpu_body_eq]
          exact foreach_vcpu_miss _ _ vm _ _ _ hwf hn⟩
      · exact ⟨_, by
          simp only [get_primary_vcpu_run, get_primary_vcpu_body_eq]
          exact foreach_vcpu_hit _ _ vm _ _ _ j v hf⟩

/-- C5 at the example VM: `vcpu_from_vid(1)` ends in a frame that holds
the example VM unchanged. -/
theorem lookups_do_not_mutate_witness :
    vcpu_from_vid_run example_vm 1
      = some { vm := example_vm, i := 1, vcpu := vcpu_ptr.slot 1,
               target_vcpu := vcpu_ptr.NULL } ∧
    vcpu_from_vid example_vm 1 = some (vcpu_ptr.slot 1) :=
  ⟨by decide,
   ((lookups_do_not_mutate example_vm 1 2).1
      { vm := example_vm, i := 1, vcpu := vcpu_ptr.slot 1, target_vcpu := vcpu_ptr.NULL }
      (by decide)).2⟩

/-- C8: on a VM in which exactly one created VCPU is the bootstrap VCPU,
`get_primary_vcpu` returns the address of that VCPU, wherever it is stored,
and never `NULL`. -/
theorem get_primary_vcpu_unique_bsp (vm : acrn_vm) (j : Nat) (v : acrn_vcpu)
    (hc : created_at vm j v) (hb : is_vcpu_bsp v = true)
    (huniq : ∀ k w, created_at vm k w → is_vcpu_bsp w = true → k = j) :
    get_primary_vcpu vm = some (vcpu_ptr.slot j) ∧
    vcpu_deref vm (vcpu_ptr.slot j) = some v ∧
    get_primary_vcpu vm ≠ some vcpu_ptr.NULL := by
  have hf : first_match vm is_vcpu_bsp j v := by
    refine ⟨hc, hb, ?_⟩
    intro k w hk hkc
    by_contra hne
    have := huniq k w hkc (by simpa using hne)
    omega
  have hres := get_primary_vcpu_of_first_match vm j v hf
  refine ⟨hres, hc.2, ?_⟩
  rw [hres]
  simp

/-- The created VCPUs of `late_bsp_vm` are its first two entries. -/
theorem late_bsp_vm_created (j : Nat) (v : acrn_vcpu) (h : created_at late_bsp_vm j v) :
    (j = 0 ∧ v = { vcpu_id := 0, pcpu_id := 1, bsp := false }) ∨
    (j = 1 ∧ v = { vcpu_id := 1, pcpu_id := 2, bsp := true }) := by
  obtain ⟨hj, hv⟩ := h
  have hj2 : j < 2 := hj
  interval_cases j
  · left
    refine ⟨rfl, ?_⟩
    have h0 : late_bsp_vm.hw.vcpu_array[0]? = some { vcpu_id := 0, pcpu_id := 1, bsp := false } := rfl
    rw [h0] at hv
    exact (Option.some.inj hv).symm
  · right
    refine ⟨rfl, ?_⟩
    have h1 : late_bsp_vm.hw.vcpu_array[1]? = some { vcpu_id := 1, pcpu_id := 2, bsp := true } := rfl
    rw [h1] at hv
    exact (Option.some.inj hv).symm

/-- C8 at a VM whose only bootstrap VCPU is stored second. -/
theorem get_primary_vcpu_unique_bsp_witness :
    get_primary_vcpu late_bsp_vm = some (vcpu_ptr.slot 1) ∧
    vcpu_deref late_bsp_vm (vcpu_ptr.slot 1)
      = some { vcpu_id := 1, pcpu_id := 2, bsp := true } ∧
    get_primary_vcpu late_bsp_vm ≠ some vcpu_ptr.NULL :=
  get_primary_vcpu_unique_bsp late_bsp_vm 1 { vcpu_id := 1, pcpu_id := 2, bsp := true }
    ⟨by decide, rfl⟩ rfl
    (fun k w hkc hw => by
      rcases late_bsp_vm_created k w hkc with ⟨_, rfl⟩ | ⟨hk, _⟩
      · exact Bool.noConfusion hw
      · exact hk)

/-- C9: on a VM with at most `CONFIG_MAX_VCPUS_PER_VM` created VCPUs, the
capacity of its VCPU array, in which the created VCPU stored at index `i` has
identifier `i`, `vcpu_from_vid` returns for every identifier below
`CONFIG_MAX_VCPUS_PER_VM` the address of a slot inside the array: slot
`vcpu_id` when `vcpu_id < created_vcpus`, slot `created_vcpus` otherwise. -/
theorem vcpu_from_vid_in_bounds (CONFIG_MAX_VCPUS_PER_VM : Nat) (vm : acrn_vm)
    (vcpu_id : Nat)
    (hcap : vm.hw.vcpu_array.length = CONFIG_MAX_VCPUS_PER_VM)
    (hle : vm.hw.created_vcpus ≤ CONFIG_MAX_VCPUS_PER_VM)
    (hid : ∀ i v, created_at vm i v → v.vcpu_id = i)
    (hpre : vcpu_id < CONFIG_MAX_VCPUS_PER_VM) :
    ∃ k, vcpu_from_vid vm vcpu_id = some (vcpu_ptr.slot k) ∧
      k = (if vcpu_id < vm.hw.created_vcpus then vcpu_id else vm.hw.created_vcpus) ∧
      k < CONFIG_MAX_VCPUS_PER_VM ∧
      ∃ w, vcpu_deref vm (vcpu_ptr.slot k) = some w := by
  by_cases hlt : vcpu_id < vm.hw.created_vcpus
  · have hlen : vcpu_id < vm.hw.vcpu_array.length := by omega
    have hget : vm.hw.vcpu_array[vcpu_id]? = some (vm.hw.vcpu_array[vcpu_id]) :=
      List.getElem?_eq_getElem hlen
    have hc : created_at vm vcpu_id (vm.hw.vcpu_array[vcpu_id]) := ⟨hlt, hget⟩
    have hf : first_match vm (fun w => decide (w.vcpu_id = vcpu_id)) vcpu_id
        (vm.hw.vcpu_array[vcpu_id]) := by
      refine ⟨hc, by simpa using hid _ _ hc, ?_⟩
      intro k w hk hkc
      have := hid k w hkc
      simp only [decide_eq_false_iff_not]
      omega
    refine ⟨vcpu_id, vcpu_from_vid_of_first_match vm vcpu_id _ _ hf, by simp [hlt], hpre,
      _, hget⟩
  · have hn : no_match vm (fun w => decide (w.vcpu_id = vcpu_id)) := by
      intro j v hc
      have := hid j v hc
      have := hc.1
      simp only [decide_eq_false_iff_not]
      omega
    have hclen : vm.hw.created_vcpus < vm.hw.vcpu_array.length := by omega
    refine ⟨vm.hw.created_vcpus, vcpu_from_vid_of_no_match vm vcpu_id (by omega) hn,
      by simp [hlt], by omega, _, List.getElem?_eq_getElem hclen⟩

/-- C9 at the example VM, whose array has 8 slots: identifier 5 yields slot 2. -/
theorem vcpu_from_vid_in_bounds_witness :
    ∃ k, vcpu_from_vid example_vm 5 = some (vcpu_ptr.slot k) ∧
      k = (if 5 < example_vm.hw.created_vcpus then 5 else example_vm.hw.created_vcpus) ∧
      k < 8 ∧
      ∃ w, vcpu_deref example_vm (vcpu_ptr.slot k) = some w :=
  vcpu_from_vid_in_bounds 8 example_vm 5 (by decide) (by decide)
    (fun i v h => by
      rcases example_vm_created i v h with ⟨hi, rfl⟩ | ⟨hi, rfl⟩
      · exact hi.symm
      · exact hi.symm)
    (by decide)

/-! ## Layout, configuration table -/

theorem align_up_zero (a : Nat) : align_up 0 a = 0 := by
  unfold align_up
  rcases Nat.eq_zero_or_pos a with h | h
  · subst h
    simp
  · have : (0 + a - 1) / a = 0 := Nat.div_eq_of_lt (by omega)
    rw [this, Nat.zero_mul]

theorem align_up_one (off : Nat) : align_up off 1 = off := by
  unfold align_up
  simp

/-- The mask `2 ^ b` selects bit `b`. -/
theorem and_two_pow_ne_zero (flags b : Nat) :
    ((flags &&& 2 ^ b) != 0) = flags.testBit b := by
  rw [Nat.and_comm, Nat.two_pow_and]
  cases h : flags.testBit b
  · simp
  · have : 2 ^ b ≠ 0 := by positivity
    simp [this]

/-- C6: in `struct acrn_vm` the I/O bitmap A, the I/O bitmap B and the MSR
bitmap lie at the byte offsets 0, `PAGE_SIZE` and `2 * PAGE_SIZE`; in a
`struct acrn_vm` placed at a multiple of `PAGE_SIZE` the address of each of
the three is a multiple of `PAGE_SIZE`. -/
theorem bitmaps_page_aligned (PAGE_SIZE arch_size : Nat) (arch_rest vm_rest : List c_member)
    (base : Nat) (hbase : base % PAGE_SIZE = 0) :
    offset_io_bitmap_a PAGE_SIZE arch_size arch_rest vm_rest = some 0 ∧
    offset_io_bitmap_b PAGE_SIZE arch_size arch_rest vm_rest = some PAGE_SIZE ∧
    offset_msr_bitmap PAGE_SIZE arch_size arch_rest vm_rest = some (2 * PAGE_SIZE) ∧
    (∃ a, address_of base (offset_io_bitmap_a PAGE_SIZE arch_size arch_rest vm_rest) = some a ∧
      a % PAGE_SIZE = 0) ∧
    (∃ a, address_of base (offset_io_bitmap_b PAGE_SIZE arch_size arch_rest vm_rest) = some a ∧
      a % PAGE_SIZE = 0) ∧
    (∃ a, address_of base (offset_msr_bitmap PAGE_SIZE arch_size arch_rest vm_rest) = some a ∧
      a % PAGE_SIZE = 0) := by
  have ha : offset_io_bitmap_a PAGE_SIZE arch_size arch_rest vm_rest = some 0 := by
    simp [offset_io_bitmap_a, acrn_vm_members, vm_arch_members, member_offset, align_up_zero]
  have hb : offset_io_bitmap_b PAGE_SIZE arch_size arch_rest vm_rest = some PAGE_SIZE := by
    simp [offset_io_bitmap_b, ha]
  have hm : offset_msr_bitmap PAGE_SIZE arch_size arch_rest vm_rest = some (2 * PAGE_SIZE) := by
    simp [offset_msr_bitmap, acrn_vm_members, vm_arch_members, member_offset, align_up_zero,
      align_up_one, Nat.mul_comm]
  refine ⟨ha, hb, hm, ⟨base + 0, by simp [address_of, ha], by simpa using hbase⟩,
    ⟨base + PAGE_SIZE, by simp [address_of, hb], ?_⟩,
    ⟨base + 2 * PAGE_SIZE, by simp [address_of, hm], ?_⟩⟩
  · rw [Nat.add_mod_right]
    exact hbase
  · rw [Nat.add_mul_mod_self_right]
    exact hbase

/-- C6 with 4-KByte pages, for a `struct acrn_vm` placed at address 0x200000. -/
theorem bitmaps_page_aligned_witness :
    2097152 % 4096 = 0 ∧
    offset_io_bitmap_a 4096 16384 [] [] = some 0 ∧
    offset_io_bitmap_b 4096 16384 [] [] = some 4096 ∧
    offset_msr_bitmap 4096 16384 [] [] = some (2 * 4096) ∧
    (∃ a, address_of 2097152 (offset_io_bitmap_a 4096 16384 [] []) = some a ∧ a % 4096 = 0) ∧
    (∃ a, address_of 2097152 (offset_io_bitmap_b 4096 16384 [] []) = some a ∧ a % 4096 = 0) ∧
    (∃ a, address_of 2097152 (offset_msr_bitmap 4096 16384 [] []) = some a ∧ a % 4096 = 0) :=
  ⟨by decide, bitmaps_page_aligned 4096 16384 [] [] 2097152 (by decide)⟩

/-- C7: for a VM identifier below `CONFIG_MAX_VM_NUM`, the length of
`vm_configs`, the pointer `get_vm_config` returns designates slot `vm_id` of
the table and dereferences to the record stored there; the table is handed
back unchanged, and another valid identifier yields another slot. -/
theorem get_vm_config_spec (CONFIG_MAX_VM_NUM : Nat) (vm_configs : List acrn_vm_config)
    (vm_id : Nat) (hlen : vm_configs.length = CONFIG_MAX_VM_NUM)
    (hpre : vm_id < CONFIG_MAX_VM_NUM) :
    (get_vm_config vm_configs vm_id).1 = config_ptr.slot vm_id ∧
    (∃ cfg, vm_configs[vm_id]? = some cfg ∧
      config_deref vm_configs (get_vm_config vm_configs vm_id).1 = some cfg) ∧
    (get_vm_config vm_configs vm_id).2 = vm_configs ∧
    (∀ other, other < CONFIG_MAX_VM_NUM → other ≠ vm_id →
      (get_vm_config vm_configs other).1 ≠ (get_vm_config vm_configs vm_id).1) := by
  have hlt : vm_id < vm_configs.length := by omega
  refine ⟨rfl, ⟨vm_configs[vm_id], List.getElem?_eq_getElem hlt, ?_⟩, rfl, ?_⟩
  · simp [get_vm_config, config_deref, List.getElem?_eq_getElem hlt]
  · intro other _ hne heq
    simp only [get_vm_config, config_ptr.slot.injEq] at heq
    exact hne heq

/-- C7 at the example table of three records, identifier 2. -/
theorem get_vm_config_spec_witness :
    (get_vm_config example_configs 2).1 = config_ptr.slot 2 ∧
    (∃ cfg, example_configs[2]? = some cfg ∧
      config_deref example_configs (get_vm_config example_configs 2).1 = some cfg) ∧
    (get_vm_config example_configs 2).2 = example_configs ∧
    (∀ other, other < 3 → other ≠ 2 →
      (get_vm_config example_configs other).1 ≠ (get_vm_config example_configs 2).1) :=
  get_vm_config_spec 3 example_configs 2 (by decide) (by decide)

/-- C10: with `LAPIC_PASSTHROUGH` the mask of bit `b` and `vm_id` below
`CONFIG_MAX_VM_NUM`, `is_lapic_pt` returns whether bit `b` is set in the
`guest_flags` of the record `get_vm_config(vm->vm_id)` points to, and hands
back the table and the VM unchanged; the result is the same for every VM with
the same `vm_id` and for every table whose record in that slot agrees on
bit `b`. -/
theorem is_lapic_pt_spec (CONFIG_MAX_VM_NUM b : Nat) (vm_configs : List acrn_vm_config)
    (vm : acrn_vm) (hlen : vm_configs.length = CONFIG_MAX_VM_NUM)
    (hpre : vm.vm_id < CONFIG_MAX_VM_NUM) :
    ∃ cfg, config_deref vm_configs (get_vm_config vm_configs vm.vm_id).1 = some cfg ∧
      is_lapic_pt (2 ^ b) vm_configs vm = some (cfg.guest_flags.testBit b, vm_configs, vm) ∧
      (∀ vm2 : acrn_vm, vm2.vm_id = vm.vm_id →
        (is_lapic_pt (2 ^ b) vm_configs vm2).map Prod.fst
          = some (cfg.guest_flags.testBit b)) ∧
      (∀ (configs2 : List acrn_vm_config) (cfg2 : acrn_vm_config),
        configs2[vm.vm_id]? = some cfg2 →
        cfg2.guest_flags.testBit b = cfg.guest_flags.testBit b →
        (is_lapic_pt (2 ^ b) configs2 vm).map Prod.fst
          = some (cfg.guest_flags.testBit b)) := by
  have hlt : vm.vm_id < vm_configs.length := by omega
  have hget : vm_configs[vm.vm_id]? = some (vm_configs[vm.vm_id]) :=
    List.getElem?_eq_getElem hlt
  refine ⟨vm_configs[vm.vm_id], ?_, ?_, ?_, ?_⟩
  · simp [get_vm_config, config_deref, hget]
  · simp only [is_lapic_pt, hget, and_two_pow_ne_zero]
  · intro vm2 h2
    simp only [is_lapic_pt, h2, hget, and_two_pow_ne_zero, Option.map_some']
  · intro configs2 cfg2 h2 hbit
    simp only [is_lapic_pt, h2, and_two_pow_ne_zero, Option.map_some', hbit]

/-- C10 at the example table with the mask of bit 1: the record of VM 1 has
the bit set, the record of VM 0 has not. -/
theorem is_lapic_pt_spec_witness :
    (∃ cfg, config_deref example_configs
        (get_vm_config example_configs ({ example_vm with vm_id := 1 } : acrn_vm).vm_id).1
          = some cfg ∧
      is_lapic_pt (2 ^ 1) example_configs { example_vm with vm_id := 1 }
        = some (cfg.guest_flags.testBit 1, example_configs, { example_vm with vm_id := 1 }) ∧
      (∀ vm2 : acrn_vm, vm2.vm_id = ({ example_vm with vm_id := 1 } : acrn_vm).vm_id →
        (is_lapic_pt (2 ^ 1) example_configs vm2).map Prod.fst
          = some (cfg.guest_flags.testBit 1)) ∧
      (∀ (configs2 : List acrn_vm_config) (cfg2 : acrn_vm_config),
        configs2[({ example_vm with vm_id := 1 } : acrn_vm).vm_id]? = some cfg2 →
        cfg2.guest_flags.testBit 1 = cfg.guest_flags.testBit 1 →
        (is_lapic_pt (2 ^ 1) configs2 { example_vm with vm_id := 1 }).map Prod.fst
          = some (cfg.guest_flags.testBit 1))) ∧
    (is_lapic_pt 2 example_configs { example_vm with vm_id := 1 }).map Prod.fst = some true ∧
    (is_lapic_pt 2 example_configs example_vm).map Prod.fst = some false :=
  ⟨is_lapic_pt_spec 3 1 example_configs { example_vm with vm_id := 1 } (by decide) (by decide),
   by decide, by decide⟩

end Acrn
